import Mathlib

/-!
A verification development for the `combinatorial_config` library: validation
and normalization of small configuration field schemas for combinatorial
parameter sweeps.

The Python data model is embedded shallowly: `PyVal` covers the Python values
the library's guards discriminate between (ints, floats, bools, strings,
bytes, None, the `Undefined` sentinel, tuples, lists, sets, dicts, dataclass
instances, dataclass classes, and opaque plain objects).  Python floats are
modelled as exact rationals.  A dataclass instance carries, for each declared
field name, an optional value: `none` models a declared field whose attribute
is missing from the instance (e.g. `field(init=False)` without a default), on
which Python's two-argument `getattr` raises `AttributeError`.
-/

namespace CombinatorialConfig

/-- Embedded Python values, covering the shapes the library discriminates. -/
inductive PyVal : Type where
  | int (n : Int)
  | float (q : ℚ)
  | bool (b : Bool)
  | str (s : String)
  | bytes (bs : List Nat)
  | none
  | undefined
  | tuple (xs : List PyVal)
  | list (xs : List PyVal)
  | set (xs : List PyVal)
  | dict (kvs : List (String × PyVal))
  | dataclassInstance (fields : List (String × Option PyVal))
  | dataclassClass
  | object
deriving Repr

/-! ### Python `isinstance` semantics

In CPython, `bool` is a subclass of `int`, so `isinstance(True, int)` holds;
`isinstance(1, bool)` does not. -/

/-- `isinstance(v, (int, float))` — bools pass because `bool <: int`. -/
def isinstNumber : PyVal → Bool
  | .int _ => true
  | .float _ => true
  | .bool _ => true
  | _ => false

/-- `isinstance(v, (int, float, str, bool))`. -/
def isinstPrimitive : PyVal → Bool
  | .int _ => true
  | .float _ => true
  | .bool _ => true
  | .str _ => true
  | _ => false

/-- `isinstance(v, tuple)`. -/
def isinstTuple : PyVal → Bool
  | .tuple _ => true
  | _ => false

/-- `isinstance(v, str)`. -/
def isinstStr : PyVal → Bool
  | .str _ => true
  | _ => false

/-- `isinstance(v, collections.abc.Iterable)`: tuples, lists, sets, dicts,
strings and bytes are iterable; numbers, booleans, `None`, the `Undefined`
sentinel, dataclass instances/classes and plain objects are not. -/
def isinstIterable : PyVal → Bool
  | .tuple _ => true
  | .list _ => true
  | .set _ => true
  | .dict _ => true
  | .str _ => true
  | .bytes _ => true
  | _ => false

/-- `type(v).__name__ == "_UndefinedType"`: holds exactly of the sentinel. -/
def hasUndefinedTypeName : PyVal → Bool
  | .undefined => true
  | _ => false

/-! ### `validators/values.py` -/

/-- `is_number_value(value)`: `isinstance(value, (int, float))`. -/
def is_number_value (value : PyVal) : Bool :=
  isinstNumber value

/-- `is_primitive_value(value)`: `isinstance(value, (int, float, str, bool))`. -/
def is_primitive_value (value : PyVal) : Bool :=
  isinstPrimitive value

/-- `is_enumerable_value(value)`: `is_primitive_value(value) or value is Undefined`. -/
def is_enumerable_value (value : PyVal) : Bool :=
  is_primitive_value value || (match value with | .undefined => true | _ => false)

/-! ### `validators/fields.py` (the definitions the package exports) -/

/-- `is_range_field(value)` from `validators/fields.py`: a tuple of length
1, 2 or 3 whose every element is an `int` or `float`. -/
def is_range_field (value : PyVal) : Bool :=
  match value with
  | .tuple xs =>
      decide (xs.length = 1 ∨ xs.length = 2 ∨ xs.length = 3)
        && xs.all (fun v => isinstNumber v)
  | _ => false

/-- `is_enum_field(value)` from `validators/fields.py`: a non-empty tuple whose
every element is a primitive or has type name `_UndefinedType`. -/
def is_enum_field (value : PyVal) : Bool :=
  match value with
  | .tuple xs =>
      decide (0 < xs.length)
        && xs.all (fun v => isinstPrimitive v || hasUndefinedTypeName v)
  | _ => false

/-! ### top-level `validators.py` (shadowed by the `validators/` package, but a
definition of the same names present in the repository) -/

/-- `is_range_field(value)` from the top-level module `validators.py`: only
`isinstance(value, tuple)` and a length check — no element check. -/
def legacy_is_range_field (value : PyVal) : Bool :=
  match value with
  | .tuple xs => decide (xs.length = 1 ∨ xs.length = 2 ∨ xs.length = 3)
  | _ => false

/-- `is_enum_field(value)` from the top-level module `validators.py`: a
non-empty tuple of `Primitive`s (`int | float | str | bool`); the `Undefined`
sentinel is not accepted there. -/
def legacy_is_enum_field (value : PyVal) : Bool :=
  match value with
  | .tuple xs => xs.all (fun v => isinstPrimitive v) && decide (0 < xs.length)
  | _ => false

/-! ### `normalize_range_field.py` -/

/-- `normalize_range_field(value)`: validates with `is_range_field` (the
package definition, which `from .validators import is_range_field` resolves
to) and fills defaults by position.  `raise ValueError(f"Invalid range field:
{value}")` is modelled as `Except.error value` — the error carries the
offending value. -/
def normalize_range_field (value : PyVal) : Except PyVal PyVal :=
  if !is_range_field value then .error value
  else
    match value with
    | .tuple [x] => .ok (.tuple [.int 0, x, .int 1])
    | .tuple [a, b] => .ok (.tuple [a, b, .int 1])
    | .tuple [a, b, c] => .ok (.tuple [a, b, c])
    | _ => .error value

/-! ### `validators/is_combinatorial_object.py` -/

/-- The per-value check of `is_combinatorial_object`'s loop body: strings are
rejected despite being iterable; every other value must be iterable. -/
def combinatorialFieldOK (v : PyVal) : Bool :=
  !isinstStr v && isinstIterable v

/-- The field loop of `is_combinatorial_object`: for each field, fetch the
value (for a dataclass instance via `getattr`, which raises `AttributeError`
— modelled as `Except.error ()` — when the attribute is missing), return
`False` early on a string or non-iterable value, else continue. -/
def checkFieldValues : List (Option PyVal) → Except Unit Bool
  | [] => .ok true
  | Option.none :: _ => .error ()
  | Option.some v :: rest =>
      if isinstStr v then .ok false
      else if !isinstIterable v then .ok false
      else checkFieldValues rest

/-- `is_combinatorial_object(obj)`: `obj` must be a dict or a dataclass
instance (`is_dataclass(obj) and not isinstance(obj, type)` — the class
itself is rejected); then every field value must be iterable and not a
string.  A `dict` yields its stored values; a dataclass instance enumerates
`__dataclass_fields__` and fetches each by `getattr`. -/
def is_combinatorial_object (obj : PyVal) : Except Unit Bool :=
  match obj with
  | .dict kvs => checkFieldValues (kvs.map (fun kv => Option.some kv.2))
  | .dataclassInstance fields => checkFieldValues (fields.map (fun kv => kv.2))
  | _ => .ok false

/-! ### `schemas/escapes.py` — the `Undefined` sentinel

`_UndefinedType.__new__` keeps a class-level `_instance` slot: the first
construction stores a freshly allocated instance there and every later
construction returns the stored one.  Instances are modelled by allocation
ids (`Nat`); the class-level slot is the state threaded through calls. -/

/-- One call of `_UndefinedType()`: given the current `_instance` slot and the
id a fresh allocation would get, return the instance produced and the new
slot. -/
def undefinedNew (slot : Option Nat) (fresh : Nat) : Nat × Option Nat :=
  match slot with
  | Option.none => (fresh, Option.some fresh)
  | Option.some i => (i, Option.some i)

/-- A run of consecutive `_UndefinedType()` calls (one entry of `freshes` per
call, giving the id a fresh allocation would get), returning the produced
instances. -/
def undefinedRun (slot : Option Nat) : List Nat → List Nat
  | [] => []
  | f :: fs =>
      let (r, slot) := undefinedNew slot f
      r :: undefinedRun slot fs

/-- `__bool__` of the sentinel returns `False`; Python truthiness of the
embedded values (numbers are truthy iff nonzero, containers iff non-empty,
`None` and `Undefined` falsy, plain objects truthy by default). -/
def pyTruth : PyVal → Bool
  | .int n => decide (n ≠ 0)
  | .float q => decide (q ≠ 0)
  | .bool b => b
  | .str s => decide (s ≠ "")
  | .bytes bs => decide (bs ≠ [])
  | .none => false
  | .undefined => false
  | .tuple xs => !xs.isEmpty
  | .list xs => !xs.isEmpty
  | .set xs => !xs.isEmpty
  | .dict kvs => !kvs.isEmpty
  | .dataclassInstance _ => true
  | .dataclassClass => true
  | .object => true

/-! ### `normalizers/range.py` — `range_field_to_list`

The implementation file `normalizers/range.py` is not among the sources: only
`normalizers/__init__.py` (which re-exports `range_field_to_list` from it) and
`normalizers/test_range.py` (which tests it) are present. -/

/-- The rational a numeric `PyVal` denotes (`True`/`False` count as `1`/`0`,
since `bool <: int`). -/
def pyNum? : PyVal → Option ℚ
  | .int n => Option.some (n : ℚ)
  | .float q => Option.some q
  | .bool b => Option.some (if b then 1 else 0)
  | _ => Option.none

/-- Modelled from the spec: the body of `range_field_to_list` is missing from
the sources (`normalizers/range.py` is absent; only its re-export and tests
exist).  Following the spec's §4.5: normalize the field with
`normalize_range_field` (shape errors propagate from there), then materialize
the ordered finite sequence `start, start + step, …` stopping strictly before
`stop`; for nonzero `step` the element count is `max 0 ⌈(stop - start)/step⌉`
and element `i` is `start + i * step`; a zero step yields the empty sequence
(the spec's "mirrors conventional range semantics" option).  Numbers are
modelled exactly as rationals. -/
def range_field_to_list (v : PyVal) : Except PyVal (List ℚ) := do
  let n ← normalize_range_field v
  match n with
  | .tuple [a, b, c] =>
      match pyNum? a, pyNum? b, pyNum? c with
      | Option.some start, Option.some stop, Option.some step =>
          if step = 0 then pure []
          else
            let count : ℤ := max 0 ⌈(stop - start) / step⌉
            pure ((List.range count.toNat).map (fun i => start + i * step))
      | _, _, _ => throw v
  | _ => throw v

/-! ### Spec-side predicates (worded from the claims, for refinement) -/

/-- The claim's characterization of a range field: a tuple (no other iterable)
of length 1, 2 or 3 whose every element satisfies `is_number`. -/
def rangeFieldSpec (v : PyVal) : Bool :=
  match v with
  | .tuple xs =>
      decide (xs.length = 1 ∨ xs.length = 2 ∨ xs.length = 3)
        && xs.all (fun x => is_number_value x)
  | _ => false

/-- The claim's characterization of an enum field: a non-empty tuple whose
every element satisfies `is_enumerable` (primitive or the sentinel). -/
def enumFieldSpec (v : PyVal) : Bool :=
  match v with
  | .tuple xs => !xs.isEmpty && xs.all (fun x => is_enumerable_value x)
  | _ => false

/-- The claim's characterization of a combinatorial object: a dict, or a
dataclass instance every one of whose declared fields holds a value that is
iterable and not a character string (for an instance the value must actually
be present). -/
def combinatorialObjectSpec (obj : PyVal) : Bool :=
  match obj with
  | .dict kvs => kvs.all (fun kv => combinatorialFieldOK kv.2)
  | .dataclassInstance fields =>
      fields.all (fun kv =>
        match kv.2 with
        | Option.some v => combinatorialFieldOK v
        | Option.none => false)
  | _ => false

/-- A dataclass instance is well formed when every declared field's attribute
is present; every non-dataclass value counts as well formed. -/
def wellFormedInstance (obj : PyVal) : Bool :=
  match obj with
  | .dataclassInstance fields => fields.all (fun kv => kv.2.isSome)
  | _ => true

/-! ### Helper lemmas -/

/-- The field loop returns `True` exactly when every field is present and its
value passes the per-value check. -/
theorem checkFieldValues_ok_true_iff (vs : List (Option PyVal)) :
    checkFieldValues vs = .ok true ↔
      vs.all (fun o =>
        match o with
        | Option.some v => combinatorialFieldOK v
        | Option.none => false) = true := by
  induction vs with
  | nil => simp [checkFieldValues]
  | cons hd tl ih =>
    cases hd with
    | none => simp [checkFieldValues]
    | some v =>
      by_cases hs : isinstStr v
      · simp [checkFieldValues, hs, combinatorialFieldOK]
      · by_cases hi : isinstIterable v
        · simp [checkFieldValues, hs, hi, combinatorialFieldOK, ih]
        · simp [checkFieldValues, hs, hi, combinatorialFieldOK]

/-- The field loop cannot raise when every field value is present. -/
theorem checkFieldValues_ok_of_all_isSome (vs : List (Option PyVal))
    (h : vs.all (fun o => o.isSome) = true) : ∃ b, checkFieldValues vs = .ok b := by
  induction vs with
  | nil => exact ⟨true, rfl⟩
  | cons hd tl ih =>
    cases hd with
    | none => simp at h
    | some v =>
      simp at h
      by_cases hs : isinstStr v
      · exact ⟨false, by simp [checkFieldValues, hs]⟩
      · by_cases hi : isinstIterable v
        · obtain ⟨b, hb⟩ := ih (by simpa using h)
          exact ⟨b, by simp [checkFieldValues, hs, hi, hb]⟩
        · exact ⟨false, by simp [checkFieldValues, hs, hi]⟩

/-- Once the `_instance` slot holds `i`, every later construction returns `i`
and keeps the slot unchanged. -/
theorem undefinedRun_some (i : Nat) (fs : List Nat) :
    undefinedRun (Option.some i) fs = fs.map (fun _ => i) := by
  induction fs with
  | nil => rfl
  | cons f fs ih => simp [undefinedRun, undefinedNew, ih]

/-- `List.all` over a mapped list tests the composite. -/
theorem all_map_eq {α β : Type} (l : List α) (f : α → β) (p : β → Bool) :
    (l.map f).all p = l.all (fun a => p (f a)) := by
  induction l with
  | nil => rfl
  | cons a l ih => simp [List.all_cons, ih]

/-! ### Claim theorems -/

/-- C1: for every valid range field `v` (a tuple of 1, 2, or 3 numbers),
`normalize_range_field` fills defaults by position: length 1 yields
`(0, v[0], 1)`, length 2 yields `(v[0], v[1], 1)`, and length 3 is returned
unchanged. -/
theorem normalize_range_field_fills_defaults (v : PyVal) (h : is_range_field v = true) :
    (∀ x, v = .tuple [x] →
      normalize_range_field v = .ok (.tuple [.int 0, x, .int 1])) ∧
    (∀ a b, v = .tuple [a, b] →
      normalize_range_field v = .ok (.tuple [a, b, .int 1])) ∧
    (∀ a b c, v = .tuple [a, b, c] →
      normalize_range_field v = .ok (.tuple [a, b, c])) := by
  refine ⟨?_, ?_, ?_⟩
  · rintro x rfl; simp [normalize_range_field, h]
  · rintro a b rfl; simp [normalize_range_field, h]
  · rintro a b c rfl; simp [normalize_range_field, h]

/-- Witness for C1: the three default-filling shapes at concrete inputs. -/
theorem normalize_range_field_fills_defaults_witness :
    normalize_range_field (.tuple [.int 7]) = .ok (.tuple [.int 0, .int 7, .int 1]) ∧
    normalize_range_field (.tuple [.int 2, .int 5]) = .ok (.tuple [.int 2, .int 5, .int 1]) ∧
    normalize_range_field (.tuple [.int 1, .int 10, .int 2]) = .ok (.tuple [.int 1, .int 10, .int 2]) :=
  ⟨(normalize_range_field_fills_defaults (.tuple [.int 7]) rfl).1 (.int 7) rfl,
   (normalize_range_field_fills_defaults (.tuple [.int 2, .int 5]) rfl).2.1 (.int 2) (.int 5) rfl,
   (normalize_range_field_fills_defaults
      (.tuple [.int 1, .int 10, .int 2]) rfl).2.2 (.int 1) (.int 10) (.int 2) rfl⟩

/-- C3: `normalize_range_field v` raises (an error carrying exactly the
offending value `v`) if and only if `is_range_field v` is false; it succeeds
if and only if `is_range_field v` holds.  The embedding is a pure function:
the input is untouched and no partial result is produced. -/
theorem normalize_range_field_error_iff_invalid (v : PyVal) :
    (is_range_field v = false ↔ normalize_range_field v = .error v) ∧
    ((normalize_range_field v).isOk = true ↔ is_range_field v = true) := by
  by_cases h : is_range_field v = true
  · constructor
    · simp only [h]
      constructor
      · intro hf; cases hf
      · intro herr
        exfalso
        rcases v with _|_|_|_|_|_|_|xs|_|_|_|_|_|_ <;> simp [is_range_field] at h
        rcases xs with _|⟨x, _|⟨y, _|⟨z, _|w⟩⟩⟩ <;> simp at h <;>
          simp [normalize_range_field, is_range_field, h] at herr
    · simp only [h, iff_true]
      rcases v with _|_|_|_|_|_|_|xs|_|_|_|_|_|_ <;> simp [is_range_field] at h
      rcases xs with _|⟨x, _|⟨y, _|⟨z, _|w⟩⟩⟩ <;> simp at h <;>
        simp [normalize_range_field, is_range_field, h, Except.isOk, Except.toBool]
  · rw [Bool.not_eq_true] at h
    refine ⟨by simp [normalize_range_field, h], ?_⟩
    simp [normalize_range_field, h, Except.isOk, Except.toBool]

/-- C6: `normalize_range_field` is idempotent — feeding a successful result
back in returns that same 3-tuple. -/
theorem normalize_range_field_idempotent (v r : PyVal)
    (h : normalize_range_field v = .ok r) : normalize_range_field r = .ok r := by
  by_cases hv : is_range_field v = true
  · rcases v with _|_|_|_|_|_|_|xs|_|_|_|_|_|_ <;> simp [is_range_field] at hv
    rcases xs with _|⟨x, _|⟨y, _|⟨z, _|w⟩⟩⟩ <;> simp at hv
    · simp [normalize_range_field, is_range_field, hv] at h
      subst h
      simp [normalize_range_field, is_range_field, hv,
        show isinstNumber (.int 0) = true from rfl,
        show isinstNumber (.int 1) = true from rfl]
    · simp [normalize_range_field, is_range_field, hv] at h
      subst h
      simp [normalize_range_field, is_range_field, hv.1, hv.2,
        show isinstNumber (.int 1) = true from rfl]
    · simp [normalize_range_field, is_range_field, hv] at h
      subst h
      simp [normalize_range_field, is_range_field, hv.1, hv.2.1, hv.2.2]
  · rw [Bool.not_eq_true] at hv
    simp [normalize_range_field, hv] at h

/-- Witness for C6: idempotence at the concrete field `(5,)`. -/
theorem normalize_range_field_idempotent_witness :
    normalize_range_field (.tuple [.int 0, .int 5, .int 1]) =
      .ok (.tuple [.int 0, .int 5, .int 1]) :=
  normalize_range_field_idempotent (.tuple [.int 5]) (.tuple [.int 0, .int 5, .int 1]) rfl

/-- C10: Python booleans pass wherever numbers are required, because `bool`
is a subclass of `int`: `is_number(True)` holds, `(True, False)` is a valid
range field, and `normalize_range_field((True,))` returns `(0, True, 1)`
instead of raising — while `True` is also a primitive. -/
theorem bool_accepted_as_number :
    is_number_value (.bool true) = true ∧
    is_primitive_value (.bool true) = true ∧
    is_range_field (.tuple [.bool true, .bool false]) = true ∧
    normalize_range_field (.tuple [.bool true]) = .ok (.tuple [.int 0, .bool true, .int 1]) :=
  ⟨rfl, rfl, rfl, rfl⟩

/-- C2: `is_combinatorial_object` returns `True` exactly on dicts and
dataclass instances (never the class itself) whose every field holds a
present, iterable, non-string value; in particular the zero-field dict and
dataclass instance pass, scalar- or string-valued fields fail, and scalars,
lists, sets, class objects and plain objects fail. -/
theorem is_combinatorial_object_characterization :
    (∀ obj, is_combinatorial_object obj = .ok true ↔ combinatorialObjectSpec obj = true) ∧
    is_combinatorial_object (.dict []) = .ok true ∧
    is_combinatorial_object (.dataclassInstance []) = .ok true ∧
    is_combinatorial_object (.dict [("lr", .float (1/10))]) = .ok false ∧
    is_combinatorial_object (.dict [("name", .str "x")]) = .ok false ∧
    is_combinatorial_object (.dict [("lr", .list [.float (1/10), .float (1/100)])]) = .ok true ∧
    is_combinatorial_object (.int 42) = .ok false ∧
    is_combinatorial_object (.list [.int 1, .int 2, .int 3]) = .ok false ∧
    is_combinatorial_object (.set [.int 1]) = .ok false ∧
    is_combinatorial_object .dataclassClass = .ok false ∧
    is_combinatorial_object .object = .ok false := by
  refine ⟨?_, rfl, rfl, rfl, rfl, rfl, rfl, rfl, rfl, rfl, rfl⟩
  intro obj
  have hdict : ∀ kvs : List (String × PyVal),
      is_combinatorial_object (.dict kvs) = .ok true ↔
        combinatorialObjectSpec (.dict kvs) = true := by
    intro kvs
    show checkFieldValues (kvs.map fun kv => Option.some kv.2) = .ok true ↔ _
    rw [checkFieldValues_ok_true_iff, all_map_eq]
    exact Iff.rfl
  have hinst : ∀ fields : List (String × Option PyVal),
      is_combinatorial_object (.dataclassInstance fields) = .ok true ↔
        combinatorialObjectSpec (.dataclassInstance fields) = true := by
    intro fields
    show checkFieldValues (fields.map fun kv => kv.2) = .ok true ↔ _
    rw [checkFieldValues_ok_true_iff, all_map_eq]
    exact Iff.rfl
  rcases obj with _|_|_|_|_|_|_|_|_|_|kvs|fields|_|_
  · simp [is_combinatorial_object, combinatorialObjectSpec]
  · simp [is_combinatorial_object, combinatorialObjectSpec]
  · simp [is_combinatorial_object, combinatorialObjectSpec]
  · simp [is_combinatorial_object, combinatorialObjectSpec]
  · simp [is_combinatorial_object, combinatorialObjectSpec]
  · simp [is_combinatorial_object, combinatorialObjectSpec]
  · simp [is_combinatorial_object, combinatorialObjectSpec]
  · simp [is_combinatorial_object, combinatorialObjectSpec]
  · simp [is_combinatorial_object, combinatorialObjectSpec]
  · simp [is_combinatorial_object, combinatorialObjectSpec]
  · exact hdict kvs
  · exact hinst fields
  · simp [is_combinatorial_object, combinatorialObjectSpec]
  · simp [is_combinatorial_object, combinatorialObjectSpec]

/-- C5 counterexample: the repository's shadowed top-level `validators.py`
also defines `is_range_field`, and that definition accepts the tuple
`("a",)` although its element is not a number — so not every definition of
`is_range_field` in the library matches the claimed characterization. -/
theorem legacy_is_range_field_accepts_non_number :
    legacy_is_range_field (.tuple [.str "a"]) = true ∧
    is_number_value (.str "a") = false ∧
    rangeFieldSpec (.tuple [.str "a"]) = false :=
  ⟨rfl, rfl, rfl⟩

/-- C5 (amended): the `is_range_field` the package exports
(`validators/fields.py`, the definition `normalize_range_field` uses) returns
`True` exactly on tuples of length 1–3 whose every element satisfies
`is_number`; the shadowed top-level `validators.py` definition checks only
tuple-ness and length, so it accepts everything the package definition
accepts and more. -/
theorem is_range_field_characterization :
    (∀ v, is_range_field v = rangeFieldSpec v) ∧
    (∀ v, rangeFieldSpec v = true → legacy_is_range_field v = true) := by
  constructor
  · intro v
    rcases v with _|_|_|_|_|_|_|xs|_|_|_|_|_|_ <;>
      simp [is_range_field, rangeFieldSpec, is_number_value]
  · intro v h
    rcases v with _|_|_|_|_|_|_|xs|_|_|_|_|_|_ <;>
      simp [rangeFieldSpec, legacy_is_range_field] at h ⊢
    exact h.1

/-- Witness for C5's amended theorem: a concrete numeric tuple passes both
definitions. -/
theorem is_range_field_characterization_witness :
    rangeFieldSpec (.tuple [.int 1, .float (1/2)]) = true ∧
    legacy_is_range_field (.tuple [.int 1, .float (1/2)]) = true :=
  ⟨rfl, is_range_field_characterization.2 (.tuple [.int 1, .float (1/2)]) rfl⟩

/-- C7 counterexample: the shadowed top-level `validators.py` also defines
`is_enum_field`, and that definition rejects the tuple `(Undefined,)`
although the sentinel is enumerable — so not every definition of
`is_enum_field` in the library matches the claimed characterization. -/
theorem legacy_is_enum_field_rejects_undefined :
    legacy_is_enum_field (.tuple [.undefined]) = false ∧
    is_enumerable_value PyVal.undefined = true ∧
    enumFieldSpec (.tuple [.undefined]) = true :=
  ⟨rfl, rfl, rfl⟩

/-- C7 (amended): the `is_enum_field` the package exports
(`validators/fields.py`) returns `True` exactly on non-empty tuples whose
every element satisfies `is_enumerable`, and its per-element test (primitive,
or type named `_UndefinedType`) agrees with `is_enumerable_value` on every
value; the shadowed top-level `validators.py` definition omits the sentinel
case, accepting only non-empty tuples of primitives. -/
theorem is_enum_field_characterization :
    (∀ v, is_enum_field v = enumFieldSpec v) ∧
    (∀ x, (isinstPrimitive x || hasUndefinedTypeName x) = is_enumerable_value x) ∧
    (∀ v, legacy_is_enum_field v = true → is_enum_field v = true) := by
  have helem : ∀ x, (isinstPrimitive x || hasUndefinedTypeName x) = is_enumerable_value x := by
    intro x
    rcases x with _|_|_|_|_|_|_|_|_|_|_|_|_|_ <;> rfl
  have hall : ∀ ys : List PyVal,
      (ys.all fun v => isinstPrimitive v || hasUndefinedTypeName v) =
        (ys.all fun x => is_enumerable_value x) := by
    intro ys
    induction ys with
    | nil => rfl
    | cons y ys ih => simp [List.all_cons, helem y, ih]
  refine ⟨?_, helem, ?_⟩
  · intro v
    rcases v with _|_|_|_|_|_|_|xs|_|_|_|_|_|_ <;> try rfl
    show (decide (0 < xs.length)
        && (xs.all fun v => isinstPrimitive v || hasUndefinedTypeName v)) =
      (!xs.isEmpty && (xs.all fun x => is_enumerable_value x))
    rw [hall xs]
    cases xs <;> simp
  · intro v h
    rcases v with _|_|_|_|_|_|_|xs|_|_|_|_|_|_ <;>
      simp [legacy_is_enum_field, is_enum_field] at h ⊢
    exact ⟨h.2, fun x hx => Or.inl (h.1 x hx)⟩

/-- Witness for C7's amended theorem: a concrete primitive tuple passes both
definitions. -/
theorem is_enum_field_characterization_witness :
    legacy_is_enum_field (.tuple [.str "on", .str "off"]) = true ∧
    is_enum_field (.tuple [.str "on", .str "off"]) = true :=
  ⟨rfl, is_enum_field_characterization.2.2 (.tuple [.str "on", .str "off"]) rfl⟩

/-- C4: `range_field_to_list` first normalizes its argument and then produces
the half-open arithmetic progression: concretely `(5,) ↦ [0,1,2,3,4]`,
`(2,8) ↦ [2,3,4,5,6,7]`, `(1,10,2) ↦ [1,3,5,7,9]`; and in general, when the
normalized triple denotes `start ≤ stop` with positive `step`, the result is
`start + i*step` for `i` below `⌈(stop - start)/step⌉`, whose cast back to ℤ
is exactly that ceiling (so the sequence has `⌈(stop - start)/step⌉`
elements). -/
theorem range_field_to_list_spec :
    range_field_to_list (.tuple [.int 5]) = .ok [0, 1, 2, 3, 4] ∧
    range_field_to_list (.tuple [.int 2, .int 8]) = .ok [2, 3, 4, 5, 6, 7] ∧
    range_field_to_list (.tuple [.int 1, .int 10, .int 2]) = .ok [1, 3, 5, 7, 9] ∧
    (∀ (v a b c : PyVal) (start stop step : ℚ),
      normalize_range_field v = .ok (.tuple [a, b, c]) →
      pyNum? a = Option.some start → pyNum? b = Option.some stop →
      pyNum? c = Option.some step → 0 < step → start ≤ stop →
      range_field_to_list v =
        .ok ((List.range ⌈(stop - start) / step⌉.toNat).map
          (fun i => start + i * step)) ∧
      (⌈(stop - start) / step⌉.toNat : ℤ) = ⌈(stop - start) / step⌉) := by
  refine ⟨?_, ?_, ?_, ?_⟩
  · have h : normalize_range_field (.tuple [.int 5]) =
        .ok (.tuple [.int 0, .int 5, .int 1]) := rfl
    have hc : (⌈(((5 : ℚ)) - 0) / 1⌉ : ℤ) = 5 := by norm_num
    simp [range_field_to_list, h, pyNum?, hc, bind, Except.bind, pure, Except.pure]
    norm_num [List.range_succ, List.singleton]
  · have h : normalize_range_field (.tuple [.int 2, .int 8]) =
        .ok (.tuple [.int 2, .int 8, .int 1]) := rfl
    have hc : (⌈(((8 : ℚ)) - 2) / 1⌉ : ℤ) = 6 := by norm_num
    simp [range_field_to_list, h, pyNum?, hc, bind, Except.bind, pure, Except.pure]
    norm_num [List.range_succ, List.singleton]
  · have h : normalize_range_field (.tuple [.int 1, .int 10, .int 2]) =
        .ok (.tuple [.int 1, .int 10, .int 2]) := rfl
    have hc : (⌈(((10 : ℚ)) - 1) / 2⌉ : ℤ) = 5 := by
      rw [Int.ceil_eq_iff]
      norm_num
    simp [range_field_to_list, h, pyNum?, hc, bind, Except.bind, pure, Except.pure]
    norm_num [List.range_succ, List.singleton]
  · intro v a b c start stop step h ha hb hc hstep hle
    have hne : step ≠ 0 := ne_of_gt hstep
    have hceil : 0 ≤ ⌈(stop - start) / step⌉ :=
      Int.ceil_nonneg (div_nonneg (by linarith) (le_of_lt hstep))
    have hmax : max 0 ⌈(stop - start) / step⌉ = ⌈(stop - start) / step⌉ :=
      max_eq_right hceil
    refine ⟨?_, Int.toNat_of_nonneg hceil⟩
    simp [range_field_to_list, h, ha, hb, hc, hne, hmax, bind, Except.bind,
      pure, Except.pure]

/-- Witness for C4's general clause, at the concrete field `(1, 10, 2)`. -/
theorem range_field_to_list_spec_witness :
    range_field_to_list (.tuple [.int 1, .int 10, .int 2]) =
      .ok ((List.range ⌈(((10 : ℚ)) - 1) / 2⌉.toNat).map
        (fun i => (1 : ℚ) + i * 2)) ∧
    (⌈(((10 : ℚ)) - 1) / 2⌉.toNat : ℤ) = ⌈(((10 : ℚ)) - 1) / 2⌉ :=
  range_field_to_list_spec.2.2.2 (.tuple [.int 1, .int 10, .int 2])
    (.int 1) (.int 10) (.int 2) 1 10 2 rfl rfl rfl rfl
    (by norm_num) (by norm_num)

/-- C8 counterexample: a dataclass instance that declares a field `x` whose
attribute is missing (e.g. `field(init=False)` with no default) makes
`is_combinatorial_object` propagate `AttributeError` from `getattr` instead
of returning a boolean. -/
theorem is_combinatorial_object_raises_on_missing_attribute :
    is_combinatorial_object (.dataclassInstance [("x", Option.none)]) = .error () :=
  rfl

/-- C8 (amended): the isinstance-based guards are total boolean functions by
construction, and `is_combinatorial_object` returns a boolean on every dict
and on every well-formed dataclass instance (each declared field's attribute
present) — only a malformed instance makes its `getattr` raise. -/
theorem guards_total_on_well_formed_input (obj : PyVal)
    (h : wellFormedInstance obj = true) :
    ∃ b, is_combinatorial_object obj = .ok b := by
  rcases obj with _|_|_|_|_|_|_|_|_|_|kvs|fields|_|_ <;>
    try exact ⟨false, rfl⟩
  · refine checkFieldValues_ok_of_all_isSome _ ?_
    rw [all_map_eq]
    simp
  · refine checkFieldValues_ok_of_all_isSome _ ?_
    rw [all_map_eq]
    simpa [wellFormedInstance] using h

/-- Witness for C8's amended theorem: a dict and a well-formed dataclass
instance both yield a boolean. -/
theorem guards_total_on_well_formed_input_witness :
    ∃ b, is_combinatorial_object
      (.dataclassInstance [("lr", Option.some (.list [.float (1/10)]))]) = .ok b :=
  guards_total_on_well_formed_input
    (.dataclassInstance [("lr", Option.some (.list [.float (1/10)]))]) rfl

/-- C9: `_UndefinedType()` is a process-wide singleton — the first
construction stores the fresh instance in the class slot, every construction
thereafter returns the stored instance (so any run of construction requests
returns one single instance throughout), the sentinel is falsy, and it is a
value distinct from every primitive and from `None`. -/
theorem undefined_is_singleton :
    (∀ f, undefinedNew Option.none f = (f, Option.some f)) ∧
    (∀ i f, undefinedNew (Option.some i) f = (i, Option.some i)) ∧
    (∀ slot f, (undefinedNew slot f).2 = Option.some (undefinedNew slot f).1) ∧
    (∀ f fs, undefinedRun Option.none (f :: fs) = f :: fs.map (fun _ => f)) ∧
    pyTruth PyVal.undefined = false ∧
    (∀ n, PyVal.undefined ≠ PyVal.int n) ∧
    (∀ q, PyVal.undefined ≠ PyVal.float q) ∧
    (∀ b, PyVal.undefined ≠ PyVal.bool b) ∧
    (∀ s, PyVal.undefined ≠ PyVal.str s) ∧
    PyVal.undefined ≠ PyVal.none := by
  refine ⟨fun f => rfl, fun i f => rfl, ?_, ?_, rfl, ?_, ?_, ?_, ?_, ?_⟩
  · intro slot f
    cases slot <;> rfl
  · intro f fs
    simp [undefinedRun, undefinedNew, undefinedRun_some]
  · intro n h; cases h
  · intro q h; cases h
  · intro b h; cases h
  · intro s h; cases h
  · intro h; cases h

end CombinatorialConfig
